import Mathlib

/-!
Verification of the benchmark suite execution engine.

Shallow embedding of `src/benchmarks/python/benchmark_runner.py` (functions
`run_benchmark`, `run_suite`, and the `--iterations` override step of `main`).

Modelling conventions:
* A Python exception is a `PyErr` (message together with the traceback text that
  `traceback.format_exc()` would produce); fallible code returns `Except PyErr α`.
* Durations are exact rationals (`ℚ`).  The samples produced by `time.time()`
  are environment data, so the benchmarked operation is modelled as an oracle
  `Nat → Except PyErr ℚ` mapping the invocation number (warmup calls included,
  numbered from 0) to either the raised exception or the measured duration in
  milliseconds of that call.
* `sorted(times)` is `List.mergeSort` with `(· ≤ ·)`, a stable ascending sort,
  exactly as CPython's `sorted`.
* `int(iterations * 0.95)` (line 92 of the source) is modelled as
  `19 * iterations / 20` in `ℕ`.  The Python expression multiplies `iterations`
  by the double nearest to 0.95 (which is 0.95 + δ with δ ≈ 1.11e-17) and
  truncates.  For every `n < 2^48` the rounded product `fl(n · fl(0.95))` lies
  in the same unit interval as the exact `19n/20` (when `19n/20` is an integer
  `k`, the perturbation `n·δ` is far below a half ulp of `k`, so the product
  rounds to exactly `k`; otherwise the exact value is at least 1/20 away from
  the next integer, which dwarfs `n·δ` plus a half ulp), hence the truncation
  agrees with natural-number floor division for every feasible iteration count.
* Side effects that carry no data back into the engine (prints, the
  `on_iteration` callback, timestamps, the suite-level result file write at
  lines 187-191, which passes the real file handle and succeeds) are dropped.
* The individual result write at lines 97-101 is kept, because it raises:
  `json.dump(results, None, 2)` passes three positional arguments to
  `json.dump(obj, fp, *, ...)`, whose remaining parameters are keyword-only,
  so CPython raises `TypeError` before touching the data (and even under a
  positional reading, `fp = None` has no `write` attribute).  The embedding
  models this call as an unconditional raise.
-/

/-- A Python exception: `str(e)` and the formatted traceback. -/
structure PyErr where
  msg : String
  trace : String
deriving Repr, DecidableEq

/-- The context value produced by a benchmark's `setup` (abstracted to `ℕ`;
the engine only passes it around). -/
abbrev Ctx := Nat

/-- A benchmark definition, from the dict consumed by `run_suite`
(lines 131-165): `name` (required), optional `setup` / `cleanup`, optional
`iterations` (line 159 defaults it to 100), and the operation `fn`.
`setup` is called once, so it is modelled by the outcome of that call;
`op args k` is the outcome of the k-th invocation of `fn(*args)`. -/
structure Benchmark where
  name : String
  setup : Option (Except PyErr (Option Ctx))
  cleanup : Option (Ctx → Except PyErr Unit)
  iterations : Option Nat
  op : List Ctx → Nat → Except PyErr ℚ

/-- A suite definition dict: `name`, optional `description`, ordered benchmarks. -/
structure SuiteDef where
  name : String
  description : Option String
  benchmarks : List Benchmark

/-- The options dict passed to `run_suite` (each key optional, read with
`options.get(key, default)` at lines 143-145, 187). -/
structure SuiteOptions where
  warmup : Option Bool
  verbose : Option Bool
  save_individual : Option Bool
  save_file : Option String

/-- The options dict built for one benchmark at lines 141-147. -/
structure BenchOptions where
  name : String
  warmup : Bool
  progress : Bool
  save_file : Option String

/-- The success-shaped result dict built at lines 84-94 (the timestamp field is
environment data and is dropped). -/
structure BenchStats where
  name : String
  iterations : Nat
  total : ℚ
  mean : ℚ
  median : ℚ
  min : ℚ
  max : ℚ
  p95 : ℚ
deriving Repr, DecidableEq

/-- One entry of `suite_results["benchmarks"]`: either the stats dict appended
at line 168 or the failure dict `{name, error, stack}` appended at lines
180-184. -/
inductive BenchEntry where
  | ok (r : BenchStats)
  | err (name : String) (error : String) (stack : String)
deriving Repr, DecidableEq

/-- The suite result dict (lines 123-129; timestamp dropped). -/
structure SuiteResult where
  name : String
  description : String
  benchmarks : List BenchEntry
  implementation : String

/-- Python `sorted(times)` (line 81): stable ascending sort. -/
def pySorted (l : List ℚ) : List ℚ := l.mergeSort (· ≤ ·)

/-- The p95 selection index `int(iterations * 0.95)` of line 92; see the header
comment for why the float truncation equals floor division by 20 here. -/
def pyP95Index (n : Nat) : Nat := 19 * n / 20

/-- The statistics dict of lines 81-94, computed from the sample list and the
iteration count.  Pure selection/arithmetic; partiality is recorded by the
guard below (`computeStats`), so the `getD` defaults are never exposed. -/
def statsCore (name : String) (times : List ℚ) (iterations : Nat) : BenchStats :=
  let s := pySorted times
  { name := name
    iterations := iterations
    total := times.sum
    mean := times.sum / (iterations : ℚ)
    median := s.getD (iterations / 2) 0
    min := s.getD 0 0
    max := s.getD (s.length - 1) 0
    p95 := s.getD (pyP95Index iterations) 0 }

/-- Lines 81-94 as a fallible computation: Python raises `ZeroDivisionError`
when `iterations = 0` (line 88) and `IndexError` when a selection index is out
of range of `sorted_times`; otherwise the stats dict is produced. -/
def computeStats (name : String) (times : List ℚ) (iterations : Nat) :
    Option BenchStats :=
  if iterations ≠ 0 ∧ 0 < times.length ∧ iterations / 2 < times.length ∧
      pyP95Index iterations < times.length
  then some (statsCore name times iterations) else none

/-- Run `k` successive invocations of the oracle starting at invocation number
`start`, collecting durations, stopping at the first raised exception. -/
def callSeq (f : Nat → Except PyErr ℚ) (start k : Nat) :
    Except PyErr (List ℚ) :=
  match k with
  | 0 => .ok []
  | k + 1 =>
    match f start with
    | .error e => .error e
    | .ok d =>
      match callSeq f (start + 1) k with
      | .error e => .error e
      | .ok ds => .ok (d :: ds)

/-- The warmup loop (lines 55-57) followed by the measured loop (lines 60-78):
`min(10, iterations // 10)` untimed invocations when warmup is enabled, then
`iterations` timed invocations; any exception propagates. -/
def execPhase (f : Nat → Except PyErr ℚ) (iterations : Nat) (warmup : Bool) :
    Except PyErr (List ℚ) :=
  let w := if warmup then min 10 (iterations / 10) else 0
  match callSeq f 0 w with
  | .error e => .error e
  | .ok _ => callSeq f w iterations

/-- The `ZeroDivisionError` raised at line 88 when `iterations = 0`. -/
def divByZeroErr : PyErr :=
  { msg := "division by zero", trace := "ZeroDivisionError: division by zero" }

/-- The `TypeError` raised by `json.dump(results, None, 2)` at line 100. -/
def jsonDumpNoneErr : PyErr :=
  { msg := "dump() takes 2 positional arguments but 3 were given"
    trace := "TypeError: dump() takes 2 positional arguments but 3 were given" }

/-- Function `run_benchmark` (lines 36-103) with the argument tuple already applied to
`fn`: warmup, measured iterations, statistics, then the individual-result save
of lines 97-101 (which raises whenever `save_file` is set, see header). -/
def run_benchmark (f : Nat → Except PyErr ℚ) (iterations : Nat)
    (options : BenchOptions) : Except PyErr BenchStats :=
  match execPhase f iterations options.warmup with
  | .error e => .error e
  | .ok times =>
    match computeStats options.name times iterations with
    | none => .error divByZeroErr
    | some st =>
      match options.save_file with
      | some _ => .error jsonDumpNoneErr
      | none => .ok st

/-- The space-to-underscore substitution of `benchmark["name"].replace(' ', '_')`
on one character (the pattern is a single character, so CPython's `str.replace`
acts character-wise). -/
def pyUnderscore (c : Char) : Char := if c = ' ' then '_' else c

/-- The individual result file name built at lines 145-146:
`{suite_name}_{benchmark_name with spaces replaced by underscores, lowercased}.json`
(`.lower()` modelled character-wise by `Char.toLower`, which agrees with
CPython's `str.lower` on the ASCII benchmark names in scope). -/
def indivFileName (suiteName benchName : String) : String :=
  suiteName ++ "_" ++
    String.mk ((benchName.data.map pyUnderscore).map Char.toLower) ++ ".json"

/-- The per-benchmark options dict of lines 141-147: `warmup` defaults to
true, `progress` comes from `verbose`, and `save_file` is set exactly when
`save_individual` is truthy. -/
def benchOptions (o : SuiteOptions) (suiteName : String) (b : Benchmark) :
    BenchOptions :=
  { name := b.name
    warmup := o.warmup.getD true
    progress := o.verbose.getD false
    save_file :=
      if o.save_individual.getD false then some (indivFileName suiteName b.name)
      else none }

/-- Lines 136-138: `setup_result` is `None` unless a `setup` is present, in
which case its call's outcome (value or exception) is taken. -/
def setupRes (b : Benchmark) : Except PyErr (Option Ctx) :=
  match b.setup with
  | none => .ok none
  | some r => r

/-- Lines 150-153: the argument tuple for `fn` — `[setup_result]` when the
context is not `None`, empty otherwise. -/
def argsFor : Option Ctx → List Ctx
  | some v => [v]
  | none => []

/-- One iteration of the `for benchmark in suite["benchmarks"]` body
(lines 134-184): the try block runs setup, `run_benchmark`, then cleanup
(line 164: only when a cleanup exists and the context is not `None`); any
exception is caught at line 176 and turned into a `{name, error, stack}`
entry.  The second component records the arguments of the cleanup calls made
(`[]` or `[ctx]`). -/
def runOne (o : SuiteOptions) (suiteName : String) (b : Benchmark) :
    BenchEntry × List Ctx :=
  match setupRes b with
  | .error e => (.err b.name e.msg e.trace, [])
  | .ok sr =>
    match run_benchmark (b.op (argsFor sr)) (b.iterations.getD 100)
        (benchOptions o suiteName b) with
    | .error e => (.err b.name e.msg e.trace, [])
    | .ok st =>
      match b.cleanup, sr with
      | some c, some v =>
        match c v with
        | .error e => (.err b.name e.msg e.trace, [v])
        | .ok _ => (.ok st, [v])
      | _, _ => (.ok st, [])

/-- Function `run_suite` (lines 106-193): every benchmark contributes exactly one entry,
in declaration order; the suite-level save of lines 187-191 writes through a
real file handle and returns the in-memory result either way. -/
def run_suite (suite : SuiteDef) (options : SuiteOptions) : SuiteResult :=
  { name := suite.name
    description := suite.description.getD ""
    benchmarks := suite.benchmarks.map fun b => (runOne options suite.name b).1
    implementation := "python" }

/-- The cleanup-call trace of a whole suite run, one entry per benchmark. -/
def suiteCleanupTraces (suite : SuiteDef) (options : SuiteOptions) :
    List (List Ctx) :=
  suite.benchmarks.map fun b => (runOne options suite.name b).2

/-- The benchmark-entry produced when the operation is invoked with the empty
argument tuple and no cleanup runs — the no-context path of the orchestrator. -/
def runZeroArg (o : SuiteOptions) (suiteName : String) (b : Benchmark) :
    BenchEntry :=
  match run_benchmark (b.op []) (b.iterations.getD 100)
      (benchOptions o suiteName b) with
  | .error e => .err b.name e.msg e.trace
  | .ok st => .ok st

/-- Lines 226-228 of `main`: `if args.iterations:` (falsy for 0 / absent)
overwrites the `iterations` field of every benchmark dict in place. -/
def overrideIterations (n : Option Nat) (suite : SuiteDef) : SuiteDef :=
  match n with
  | none => suite
  | some k =>
    if k = 0 then suite
    else { suite with
           benchmarks := suite.benchmarks.map fun b =>
             { b with iterations := some k } }

/-! ### Helper lemmas about the sorted sample list -/

theorem pySorted_sorted (l : List ℚ) : (pySorted l).Sorted (· ≤ ·) :=
  List.sorted_mergeSort' l

theorem pySorted_perm (l : List ℚ) : List.Perm (pySorted l) l :=
  List.mergeSort_perm l _

theorem pySorted_length (l : List ℚ) : (pySorted l).length = l.length :=
  (pySorted_perm l).length_eq

theorem pySorted_getD_mono (l : List ℚ) {i j : Nat} (hij : i ≤ j)
    (hj : j < (pySorted l).length) :
    (pySorted l).getD i 0 ≤ (pySorted l).getD j 0 := by
  have hi : i < (pySorted l).length := lt_of_le_of_lt hij hj
  rw [List.getD_eq_getElem _ _ hi, List.getD_eq_getElem _ _ hj]
  have h := List.Sorted.rel_get_of_le (pySorted_sorted l)
    (show (⟨i, hi⟩ : Fin (pySorted l).length) ≤ ⟨j, hj⟩ from hij)
  simpa using h

theorem pySorted_min_le (l : List ℚ) {x : ℚ} (hx : x ∈ pySorted l) :
    (pySorted l).getD 0 0 ≤ x := by
  obtain ⟨i, hi, rfl⟩ := List.getElem_of_mem hx
  have h := pySorted_getD_mono l (Nat.zero_le i) hi
  rwa [List.getD_eq_getElem _ _ hi] at h

theorem pySorted_le_max (l : List ℚ) {x : ℚ} (hx : x ∈ pySorted l) :
    x ≤ (pySorted l).getD ((pySorted l).length - 1) 0 := by
  obtain ⟨i, hi, rfl⟩ := List.getElem_of_mem hx
  have h := pySorted_getD_mono l (show i ≤ (pySorted l).length - 1 by omega)
    (show (pySorted l).length - 1 < (pySorted l).length by omega)
  rwa [List.getD_eq_getElem _ _ hi] at h

theorem p95Index_lt (n : Nat) (hn : 0 < n) : pyP95Index n < n := by
  have : 19 * n < 20 * n := by omega
  exact Nat.div_lt_of_lt_mul this

theorem computeStats_eq_some (nm : String) (times : List ℚ) (n : Nat)
    (hlen : times.length = n) (hn : 0 < n) :
    computeStats nm times n = some (statsCore nm times n) := by
  have h95 : pyP95Index n < n := p95Index_lt n hn
  unfold computeStats
  rw [if_pos]
  exact ⟨by omega, by omega, by omega, by omega⟩

/-! ### The claims -/

/-- Claim C2: `run_suite` returns one result entry per benchmark definition, in
declaration order, and processes every benchmark independently, so no single
benchmark failure aborts the remaining ones. -/
theorem run_suite_one_entry_per_benchmark (s : SuiteDef) (o : SuiteOptions) :
    (run_suite s o).benchmarks.length = s.benchmarks.length ∧
    (run_suite s o).benchmarks =
      s.benchmarks.map fun b => (runOne o s.name b).1 :=
  ⟨List.length_map _ _, rfl⟩

/-- Claim C10: for every iteration count `n ≥ 1` the p95 selection index
`int(n * 0.95)` is at most `n - 1`, so the statistics computation over a sample
list of length `n` succeeds without any out-of-range selection. -/
theorem p95_index_in_bounds (nm : String) (times : List ℚ) (n : Nat)
    (hn : 1 ≤ n) (hlen : times.length = n) :
    pyP95Index n ≤ n - 1 ∧
    computeStats nm times n = some (statsCore nm times n) := by
  have h95 : pyP95Index n < n := p95Index_lt n hn
  exact ⟨by omega, computeStats_eq_some nm times n hlen hn⟩

/-- Witness for C10 at `n = 100`, samples all 1 ms: the selection index is 95
and the statistics are produced. -/
theorem p95_index_in_bounds_witness :
    pyP95Index 100 ≤ 99 ∧
    computeStats "w" (List.replicate 100 (1 : ℚ)) 100 =
      some (statsCore "w" (List.replicate 100 (1 : ℚ)) 100) := by
  have h := p95_index_in_bounds "w" (List.replicate 100 (1 : ℚ)) 100
    (by omega) (by simp)
  exact h

/-- Specification-side characterization of the cleanup calls of one benchmark
iteration (the amended C1): exactly one call, with the context, when setup
produced a non-`None` context, a cleanup exists and `run_benchmark` returned
without raising; no call otherwise. -/
def cleanupSpec (o : SuiteOptions) (suiteName : String) (b : Benchmark) :
    List Ctx :=
  match setupRes b, b.cleanup with
  | .ok (some v), some _ =>
    match run_benchmark (b.op [v]) (b.iterations.getD 100)
        (benchOptions o suiteName b) with
    | .ok _ => [v]
    | .error _ => []
  | _, _ => []

/-- Claim C9: a benchmark whose setup is absent, or whose setup returns `None`,
runs its operation with the empty argument tuple and never runs its cleanup,
even when a cleanup is defined — exactly the no-setup path. -/
theorem none_context_zero_args_no_cleanup (o : SuiteOptions) (nm : String)
    (b : Benchmark)
    (h : b.setup = none ∨ b.setup = some (.ok none)) :
    runOne o nm b = (runZeroArg o nm b, []) := by
  have hs : setupRes b = .ok none := by
    rcases h with h | h <;> simp [setupRes, h]
  simp only [runOne, runZeroArg, hs, argsFor]
  cases run_benchmark (b.op []) (b.iterations.getD 100) (benchOptions o nm b) with
  | error e => rfl
  | ok st => cases b.cleanup <;> rfl

/-- An options dict with no keys set (every read falls back to its default). -/
def defaultOpts : SuiteOptions :=
  { warmup := none, verbose := none, save_individual := none, save_file := none }

/-- A benchmark whose setup succeeds returning `None` while a cleanup is
defined. -/
def c9Bench : Benchmark :=
  { name := "none setup"
    setup := some (.ok none)
    cleanup := some fun _ => .ok ()
    iterations := some 3
    op := fun _ _ => .ok 2 }

/-- Witness for C9: a setup that returns `None` with a cleanup defined takes
exactly the no-setup path. -/
theorem none_context_zero_args_no_cleanup_witness :
    (c9Bench.setup = none ∨ c9Bench.setup = some (.ok none)) ∧
    runOne defaultOpts "s9" c9Bench = (runZeroArg defaultOpts "s9" c9Bench, []) :=
  ⟨Or.inr rfl,
   none_context_zero_args_no_cleanup defaultOpts "s9" c9Bench (Or.inr rfl)⟩

/-- Claim C1 (amended): cleanup is called exactly once, with the context, iff
setup succeeded with a non-`None` context, a cleanup is defined, and
`run_benchmark` returned without raising; it is not called when the operation
(or warmup, or the individual save) raises, nor when setup failed or returned
`None`. -/
theorem cleanup_called_iff_context_and_success (o : SuiteOptions)
    (nm : String) (b : Benchmark) :
    (runOne o nm b).2 = cleanupSpec o nm b := by
  simp only [runOne, cleanupSpec]
  cases setupRes b with
  | error e => rfl
  | ok sr =>
    cases sr with
    | none =>
      simp only [argsFor]
      cases b.cleanup with
      | none =>
        cases run_benchmark (b.op []) (b.iterations.getD 100)
            (benchOptions o nm b) <;> rfl
      | some c =>
        cases run_benchmark (b.op []) (b.iterations.getD 100)
            (benchOptions o nm b) <;> rfl
    | some v =>
      simp only [argsFor]
      cases b.cleanup with
      | none =>
        cases run_benchmark (b.op [v]) (b.iterations.getD 100)
            (benchOptions o nm b) <;> rfl
      | some c =>
        show (match run_benchmark (b.op [v]) (b.iterations.getD 100)
              (benchOptions o nm b) with
            | .error e => (BenchEntry.err b.name e.msg e.trace, ([] : List Ctx))
            | .ok st =>
              match c v with
              | .error e => (BenchEntry.err b.name e.msg e.trace, [v])
              | .ok _ => (.ok st, [v])).2 =
          match run_benchmark (b.op [v]) (b.iterations.getD 100)
              (benchOptions o nm b) with
          | .ok _ => [v]
          | .error _ => []
        cases run_benchmark (b.op [v]) (b.iterations.getD 100)
            (benchOptions o nm b) with
        | error e => rfl
        | ok st => cases c v <;> rfl

/-- The exception raised by the always-failing operation below. -/
def failErr : PyErr := { msg := "boom", trace := "Traceback boom" }

/-- A benchmark whose setup succeeds with context 5, whose cleanup is defined,
and whose operation raises on every invocation. -/
def c1Bench : Benchmark :=
  { name := "failing op"
    setup := some (.ok (some 5))
    cleanup := some fun _ => .ok ()
    iterations := some 4
    op := fun _ _ => .error failErr }

/-- A one-benchmark suite around `c1Bench`. -/
def c1Suite : SuiteDef :=
  { name := "s1", description := none, benchmarks := [c1Bench] }

/-- Counterexample to C1 as stated: setup succeeded and a cleanup is defined,
the operation raises, yet `run_suite` makes no cleanup call at all (the claim
demands exactly one). -/
theorem cleanup_skipped_when_operation_raises :
    setupRes c1Bench = .ok (some 5) ∧
    c1Bench.cleanup.isSome = true ∧
    suiteCleanupTraces c1Suite defaultOpts = [[]] ∧
    (run_suite c1Suite defaultOpts).benchmarks =
      [.err "failing op" "boom" "Traceback boom"] :=
  ⟨rfl, rfl, rfl, rfl⟩

/-- The benchmark used for the C8 counterexample. -/
def c8Bench : Benchmark :=
  { name := "b8", setup := none, cleanup := none, iterations := some 100,
    op := fun _ _ => .ok 1 }

/-- A one-benchmark suite with a declared iteration count of 100. -/
def c8Suite : SuiteDef :=
  { name := "s8", description := none, benchmarks := [c8Bench] }

/-- Counterexample to C8 as stated: the `--iterations` override step of `main`
(lines 226-228) overwrites the `iterations` field of every benchmark
definition, here from 100 to 5. -/
theorem iterations_override_mutates_definitions :
    c8Suite.benchmarks.map Benchmark.iterations = [some 100] ∧
    (overrideIterations (some 5) c8Suite).benchmarks.map Benchmark.iterations =
      [some 5] :=
  ⟨rfl, rfl⟩

/-- Claim C8 (amended): the engine itself only reads definitions and options,
but `main`'s `--iterations` override rewrites every benchmark definition's
`iterations` field in place when a nonzero count is given; with no override
(or a falsy 0) the definitions are untouched. -/
theorem override_iterations_only_mutation (s : SuiteDef) (k : Nat)
    (hk : k ≠ 0) :
    overrideIterations none s = s ∧
    overrideIterations (some 0) s = s ∧
    (overrideIterations (some k) s).benchmarks.map Benchmark.iterations =
      s.benchmarks.map fun _ => some k := by
  refine ⟨rfl, rfl, ?_⟩
  simp [overrideIterations, hk, List.map_map, Function.comp_def]

/-- Witness for the amended C8 at a concrete suite and override 5. -/
theorem override_iterations_only_mutation_witness :
    overrideIterations none c8Suite = c8Suite ∧
    overrideIterations (some 0) c8Suite = c8Suite ∧
    (overrideIterations (some 5) c8Suite).benchmarks.map Benchmark.iterations =
      c8Suite.benchmarks.map fun _ => some 5 :=
  override_iterations_only_mutation c8Suite 5 (by omega)

/-- A benchmark whose operation always succeeds in 1 ms. -/
def c4Bench : Benchmark :=
  { name := "Create Entity", setup := none, cleanup := none,
    iterations := some 2, op := fun _ _ => .ok 1 }

/-- Suite options with `save_individual` set (the CLI always sets it). -/
def c4Opts : SuiteOptions :=
  { warmup := none, verbose := none, save_individual := some true,
    save_file := none }

/-- A one-benchmark suite around `c4Bench`. -/
def c4Suite : SuiteDef :=
  { name := "entity", description := none, benchmarks := [c4Bench] }

/-- Claim C4 (code bug): with `save_individual` set, the file name is computed
exactly as specified, but the individual save `json.dump(results, None, 2)`
raises `TypeError`, so nothing is persisted and even a fully successful
benchmark is recorded as a failure. -/
theorem save_individual_always_raises :
    (benchOptions c4Opts "entity" c4Bench).save_file =
      some "entity_create_entity.json" ∧
    run_benchmark (c4Bench.op []) 2 (benchOptions c4Opts "entity" c4Bench) =
      .error jsonDumpNoneErr ∧
    (run_suite c4Suite c4Opts).benchmarks =
      [.err "Create Entity" jsonDumpNoneErr.msg jsonDumpNoneErr.trace] :=
  ⟨rfl, rfl, rfl⟩

/-- Claim C3: when the operation raises during warmup or measurement, the
benchmark's suite entry is the failure record `{name, error, stack}` carrying
the exception's message and trace (and no statistics fields), and every
benchmark's entry is computed from its own definition alone, so the remaining
benchmarks still run. -/
theorem operation_failure_isolated (o : SuiteOptions) (s : SuiteDef)
    (nm : String) (b : Benchmark) (e : PyErr) (sr : Option Ctx)
    (hsetup : setupRes b = .ok sr)
    (hrun : execPhase (b.op (argsFor sr)) (b.iterations.getD 100)
      (benchOptions o nm b).warmup = .error e) :
    (runOne o nm b).1 = .err b.name e.msg e.trace ∧
    (run_suite s o).benchmarks =
      s.benchmarks.map fun b2 => (runOne o s.name b2).1 := by
  refine ⟨?_, rfl⟩
  have hrb : run_benchmark (b.op (argsFor sr)) (b.iterations.getD 100)
      (benchOptions o nm b) = .error e := by
    unfold run_benchmark
    rw [hrun]
  simp only [runOne, hsetup, hrb]

/-- The exception raised by the C3 witness operation on its very first
(warmup) invocation. -/
def warmupFailErr : PyErr :=
  { msg := "warmup boom", trace := "Traceback warmup boom" }

/-- A benchmark whose operation raises on invocation 0 — during warmup, since
100 iterations enable `min(10, 100 // 10) = 10` warmup calls. -/
def c3Bench : Benchmark :=
  { name := "fails in warmup"
    setup := none
    cleanup := none
    iterations := some 100
    op := fun _ k => if k = 0 then .error warmupFailErr else .ok 1 }

/-- A one-benchmark suite around `c3Bench`. -/
def c3Suite : SuiteDef :=
  { name := "s3", description := none, benchmarks := [c3Bench] }

/-- Witness for C3: the warmup-raised exception becomes the benchmark's
failure entry. -/
theorem operation_failure_isolated_witness :
    setupRes c3Bench = .ok none ∧
    execPhase (c3Bench.op (argsFor none)) (c3Bench.iterations.getD 100)
      (benchOptions defaultOpts "s3" c3Bench).warmup = .error warmupFailErr ∧
    (runOne defaultOpts "s3" c3Bench).1 =
      .err c3Bench.name warmupFailErr.msg warmupFailErr.trace ∧
    (run_suite c3Suite defaultOpts).benchmarks =
      c3Suite.benchmarks.map fun b2 => (runOne defaultOpts c3Suite.name b2).1 := by
  have h := operation_failure_isolated defaultOpts c3Suite "s3" c3Bench
    warmupFailErr none rfl rfl
  exact ⟨rfl, rfl, h.1, h.2⟩

/-- Claim C5: the aggregated median is the element at index `n / 2` of the
ascending-sorted samples — the upper median, not an average of the two middle
values. -/
theorem median_is_upper_median (nm : String) (times s : List ℚ) (n : Nat)
    (hlen : times.length = n) (hn : 0 < n)
    (hp : List.Perm times s) (hs : s.Sorted (· ≤ ·)) :
    computeStats nm times n = some (statsCore nm times n) ∧
    (statsCore nm times n).median = s.getD (n / 2) 0 := by
  have he : pySorted times = s :=
    List.eq_of_perm_of_sorted ((pySorted_perm times).trans hp)
      (pySorted_sorted times) hs
  refine ⟨computeStats_eq_some nm times n hlen hn, ?_⟩
  show (pySorted times).getD (n / 2) 0 = s.getD (n / 2) 0
  rw [he]

/-- Witness for C5 at the sorted samples 1, 2, 3, 4: the median is the element
at index `4 / 2 = 2`, namely 3 — not the mid-average 5/2. -/
theorem median_is_upper_median_witness :
    computeStats "w5" [1, 2, 3, 4] 4 = some (statsCore "w5" [1, 2, 3, 4] 4) ∧
    (statsCore "w5" [1, 2, 3, 4] 4).median =
      ([1, 2, 3, 4] : List ℚ).getD (4 / 2) 0 ∧
    (statsCore "w5" [1, 2, 3, 4] 4).median = 3 ∧
    (statsCore "w5" [1, 2, 3, 4] 4).median ≠ 5 / 2 := by
  have h := median_is_upper_median "w5" [1, 2, 3, 4] [1, 2, 3, 4] 4 rfl
    (by omega) (List.Perm.refl _) (by decide)
  have h3 : (statsCore "w5" [1, 2, 3, 4] 4).median = 3 := by
    rw [h.2]
    norm_num
  exact ⟨h.1, h.2, h3, by rw [h3]; norm_num⟩

/-- Claim C6: the aggregated p95 is the element at index `int(n * 0.95)`
(nearest-rank selection by truncation) of the ascending-sorted samples. -/
theorem p95_is_nearest_rank (nm : String) (times s : List ℚ) (n : Nat)
    (hlen : times.length = n) (hn : 0 < n)
    (hp : List.Perm times s) (hs : s.Sorted (· ≤ ·)) :
    computeStats nm times n = some (statsCore nm times n) ∧
    (statsCore nm times n).p95 = s.getD (pyP95Index n) 0 := by
  have he : pySorted times = s :=
    List.eq_of_perm_of_sorted ((pySorted_perm times).trans hp)
      (pySorted_sorted times) hs
  refine ⟨computeStats_eq_some nm times n hlen hn, ?_⟩
  show (pySorted times).getD (pyP95Index n) 0 = s.getD (pyP95Index n) 0
  rw [he]

/-- Witness for C6 at the sorted samples 10, 20, 30, 40: the selection index is
`int(4 * 0.95) = 3`, picking 40; and for 100 samples the index is 95. -/
theorem p95_is_nearest_rank_witness :
    computeStats "w6" [10, 20, 30, 40] 4 =
      some (statsCore "w6" [10, 20, 30, 40] 4) ∧
    (statsCore "w6" [10, 20, 30, 40] 4).p95 =
      ([10, 20, 30, 40] : List ℚ).getD (pyP95Index 4) 0 ∧
    pyP95Index 4 = 3 ∧
    (statsCore "w6" [10, 20, 30, 40] 4).p95 = 40 ∧
    pyP95Index 100 = 95 := by
  have h := p95_is_nearest_rank "w6" [10, 20, 30, 40] [10, 20, 30, 40] 4 rfl
    (by omega) (List.Perm.refl _) (by decide)
  have h40 : (statsCore "w6" [10, 20, 30, 40] 4).p95 = 40 := by
    rw [h.2]
    norm_num [pyP95Index]
  exact ⟨h.1, h.2, rfl, h40, rfl⟩

/-- The mean of a non-empty sample list lies between the first and the last
element of the sorted copy. -/
theorem statsCore_mean_bounds (times : List ℚ) (n : Nat)
    (hlen : times.length = n) (hn : 0 < n) :
    (pySorted times).getD 0 0 ≤ times.sum / (n : ℚ) ∧
    times.sum / (n : ℚ) ≤
      (pySorted times).getD ((pySorted times).length - 1) 0 := by
  have hsl : (pySorted times).length = n := by rw [pySorted_length, hlen]
  have hsum : (pySorted times).sum = times.sum := (pySorted_perm times).sum_eq
  have hnq : (0 : ℚ) < (n : ℚ) := by exact_mod_cast hn
  constructor
  · rw [le_div_iff₀ hnq]
    have h1 : ∀ x ∈ pySorted times, (pySorted times).getD 0 0 ≤ x :=
      fun x hx => pySorted_min_le times hx
    have h2 := List.card_nsmul_le_sum (pySorted times)
      ((pySorted times).getD 0 0) h1
    rw [nsmul_eq_mul, hsl, hsum] at h2
    calc (pySorted times).getD 0 0 * (n : ℚ)
        = (n : ℚ) * (pySorted times).getD 0 0 := by ring
      _ ≤ times.sum := h2
  · rw [div_le_iff₀ hnq]
    have h1 : ∀ x ∈ pySorted times,
        x ≤ (pySorted times).getD ((pySorted times).length - 1) 0 :=
      fun x hx => pySorted_le_max times hx
    have h2 := List.sum_le_card_nsmul (pySorted times)
      ((pySorted times).getD ((pySorted times).length - 1) 0) h1
    rw [nsmul_eq_mul, hsum] at h2
    nth_rewrite 1 [hsl] at h2
    calc times.sum
        ≤ (n : ℚ) * (pySorted times).getD ((pySorted times).length - 1) 0 := h2
      _ = (pySorted times).getD ((pySorted times).length - 1) 0 * (n : ℚ) := by
          ring

/-- Claim C7: for every non-empty sample list the aggregated statistics
satisfy min ≤ median ≤ max, min ≤ mean ≤ max and min ≤ p95 ≤ max. -/
theorem stats_order_relations (nm : String) (times : List ℚ) (n : Nat)
    (hlen : times.length = n) (hn : 0 < n) :
    computeStats nm times n = some (statsCore nm times n) ∧
    ((statsCore nm times n).min ≤ (statsCore nm times n).median ∧
      (statsCore nm times n).median ≤ (statsCore nm times n).max) ∧
    ((statsCore nm times n).min ≤ (statsCore nm times n).mean ∧
      (statsCore nm times n).mean ≤ (statsCore nm times n).max) ∧
    ((statsCore nm times n).min ≤ (statsCore nm times n).p95 ∧
      (statsCore nm times n).p95 ≤ (statsCore nm times n).max) := by
  have hsl : (pySorted times).length = n := by rw [pySorted_length, hlen]
  have h95 := p95Index_lt n hn
  refine ⟨computeStats_eq_some nm times n hlen hn, ⟨?_, ?_⟩, ?_, ⟨?_, ?_⟩⟩
  · show (pySorted times).getD 0 0 ≤ (pySorted times).getD (n / 2) 0
    exact pySorted_getD_mono times (Nat.zero_le _) (by omega)
  · show (pySorted times).getD (n / 2) 0 ≤
      (pySorted times).getD ((pySorted times).length - 1) 0
    exact pySorted_getD_mono times (by omega) (by omega)
  · show (pySorted times).getD 0 0 ≤ times.sum / (n : ℚ) ∧
      times.sum / (n : ℚ) ≤ (pySorted times).getD ((pySorted times).length - 1) 0
    exact statsCore_mean_bounds times n hlen hn
  · show (pySorted times).getD 0 0 ≤ (pySorted times).getD (pyP95Index n) 0
    exact pySorted_getD_mono times (Nat.zero_le _) (by omega)
  · show (pySorted times).getD (pyP95Index n) 0 ≤
      (pySorted times).getD ((pySorted times).length - 1) 0
    exact pySorted_getD_mono times (by omega) (by omega)

/-- Witness for C7 at the samples 3, 1, 2. -/
theorem stats_order_relations_witness :
    computeStats "w7" [3, 1, 2] 3 = some (statsCore "w7" [3, 1, 2] 3) ∧
    ((statsCore "w7" [3, 1, 2] 3).min ≤ (statsCore "w7" [3, 1, 2] 3).median ∧
      (statsCore "w7" [3, 1, 2] 3).median ≤ (statsCore "w7" [3, 1, 2] 3).max) ∧
    ((statsCore "w7" [3, 1, 2] 3).min ≤ (statsCore "w7" [3, 1, 2] 3).mean ∧
      (statsCore "w7" [3, 1, 2] 3).mean ≤ (statsCore "w7" [3, 1, 2] 3).max) ∧
    ((statsCore "w7" [3, 1, 2] 3).min ≤ (statsCore "w7" [3, 1, 2] 3).p95 ∧
      (statsCore "w7" [3, 1, 2] 3).p95 ≤ (statsCore "w7" [3, 1, 2] 3).max) :=
  stats_order_relations "w7" [3, 1, 2] 3 rfl (by omega)
